import Mathlib

/-!
Shallow embedding of the Pong simulation core (src/pong.py).

Modelling conventions:
* Python floats are embedded as exact rationals (ℚ); Python ints and
  pygame.Rect coordinates as ℤ.
* `pygame.Rect` stores `x` (left), `y` (top) and a fixed size; derived
  accessors (`right`, `bottom`, `centery`, ...) follow pygame's integer
  arithmetic (`centery = y + h // 2`, setters invert that).
* Python `int(...)` truncates toward zero (`pyInt`); Python `%` with a
  positive float modulus is floor-based (`pyMod`).
* `math.cos`/`math.sin` applied to the bounce angle are transcendental, so
  the bounce routine takes the evaluation maps `cosf sinf : ℚ → ℚ` as
  parameters; the serve angle's cosine/sine are likewise passed in as the
  values `c s : ℚ`.
* Calls to `random.*` and `pygame.time.get_ticks()` are passed in as
  explicit parameters (`AIRand`, the jitter `r`, the clock `now`).
-/

/-- Embeds SCREEN_WIDTH from src/pong.py. -/
def SCREEN_WIDTH : ℤ := 800

/-- Embeds SCREEN_HEIGHT from src/pong.py. -/
def SCREEN_HEIGHT : ℤ := 600

/-- Embeds PADDLE_WIDTH from src/pong.py. -/
def PADDLE_WIDTH : ℤ := 12

/-- Embeds PADDLE_HEIGHT from src/pong.py. -/
def PADDLE_HEIGHT : ℤ := 100

/-- Embeds PADDLE_MARGIN from src/pong.py. -/
def PADDLE_MARGIN : ℤ := 30

/-- Embeds PADDLE_SPEED (px/s, player) from src/pong.py. -/
def PADDLE_SPEED : ℚ := 420

/-- Embeds AI_MAX_SPEED (px/s, AI paddle) from src/pong.py. -/
def AI_MAX_SPEED : ℚ := 390

/-- Embeds BALL_SIZE from src/pong.py. -/
def BALL_SIZE : ℤ := 14

/-- Embeds BALL_SPEED (base speed, px/s) from src/pong.py. -/
def BALL_SPEED : ℚ := 360

/-- Embeds BALL_SPEED_INCREMENT from src/pong.py. -/
def BALL_SPEED_INCREMENT : ℚ := 18

/-- Embeds BALL_SPEED_MAX from src/pong.py. -/
def BALL_SPEED_MAX : ℚ := 680

/-- Embeds SCORE_TO_WIN from src/pong.py. -/
def SCORE_TO_WIN : ℕ := 10

/-- Embeds SERVE_DELAY (ms) from src/pong.py. -/
def SERVE_DELAY : ℤ := 800

/-- Embeds AI_TRACK_DAMPING from src/pong.py. -/
def AI_TRACK_DAMPING : ℚ := 0.22

/-- Embeds AI_LOOKAHEAD_FACTOR from src/pong.py. -/
def AI_LOOKAHEAD_FACTOR : ℚ := 0.55

/-- Python `int(q)`: truncation toward zero. -/
def pyInt (q : ℚ) : ℤ := if 0 ≤ q then ⌊q⌋ else ⌈q⌉

/-- Python `a % m` for a positive float modulus: floor-based remainder. -/
def pyMod (a m : ℚ) : ℚ := a - m * ⌊a / m⌋

/-- Embeds `clamp(val, lo, hi)` (src/pong.py line 199). -/
def clamp (val lo hi : ℚ) : ℚ := max lo (min hi val)

/-- Embeds `reflect_off_bounds(y, min_y, max_y)` (src/pong.py lines 203-212). -/
def reflect_off_bounds (y min_y max_y : ℚ) : ℚ :=
  let span := max_y - min_y
  if span ≤ 0 then clamp y min_y max_y
  else
    let t := pyMod (y - min_y) (2 * span)
    let t2 := if span < t then 2 * span - t else t
    min_y + t2

/-- Embeds `math.copysign(x, y)`: |x| carrying the sign of y. -/
def copysign (x y : ℚ) : ℚ := if y < 0 then -|x| else |x|

/-- State of a `Paddle` (src/pong.py lines 40-49): rect position plus the
AI tracking fields. `speed` is PADDLE_SPEED for the player paddle and
AI_MAX_SPEED for the AI paddle, as set by the constructor. -/
structure PaddleState where
  x : ℤ
  y : ℤ
  speed : ℚ
  reaction_timer : ℚ
  next_reaction_at : ℚ
  target_y : ℚ
  aim_error : ℚ
deriving DecidableEq

/-- pygame `rect.centery` for a paddle: top + height // 2. -/
def PaddleState.centery (p : PaddleState) : ℤ := p.y + PADDLE_HEIGHT / 2

/-- pygame `rect.centery = c` for a paddle: sets top to c - height // 2. -/
def PaddleState.set_centery (p : PaddleState) (c : ℤ) : PaddleState :=
  { p with y := c - PADDLE_HEIGHT / 2 }

/-- State of a `Ball` (src/pong.py lines 116-123): rect position, velocity,
current speed, pending serve direction and absolute serve time (ms). -/
structure BallState where
  x : ℤ
  y : ℤ
  vx : ℚ
  vy : ℚ
  speed : ℚ
  serve_dir : ℤ
  serve_time : ℤ
deriving DecidableEq

/-- pygame `rect.left` for the ball. -/
def BallState.left (b : BallState) : ℤ := b.x

/-- pygame `rect.right` for the ball. -/
def BallState.right (b : BallState) : ℤ := b.x + BALL_SIZE

/-- pygame `rect.top` for the ball. -/
def BallState.top (b : BallState) : ℤ := b.y

/-- pygame `rect.bottom` for the ball. -/
def BallState.bottom (b : BallState) : ℤ := b.y + BALL_SIZE

/-- pygame `rect.centery` for the ball. -/
def BallState.centery (b : BallState) : ℤ := b.y + BALL_SIZE / 2

/-- Embeds `Ball.serve_if_ready` (src/pong.py lines 125-132). `now` is the
current tick count; `c` and `s` are the cosine and sine of the random
launch angle drawn by `random.uniform(-0.35, 0.35)`. -/
def Ball.serve_if_ready (now : ℤ) (c s : ℚ) (b : BallState) : BallState :=
  if b.vx ^ 2 + b.vy ^ 2 = 0 ∧ b.serve_time ≤ now then
    { b with vx := copysign (b.speed * c) (b.serve_dir : ℚ),
             vy := b.speed * s }
  else b

/-- Embeds `Ball.reset(scorer_dir)` (src/pong.py lines 134-139): recenter,
reset speed, zero velocity, store the serve direction, schedule the serve. -/
def Ball.reset (scorer_dir : ℤ) (now : ℤ) (b : BallState) : BallState :=
  { b with
    x := SCREEN_WIDTH / 2 - BALL_SIZE / 2,
    y := SCREEN_HEIGHT / 2 - BALL_SIZE / 2,
    vx := 0, vy := 0,
    speed := BALL_SPEED,
    serve_dir := scorer_dir,
    serve_time := now + SERVE_DELAY }

/-- Embeds the motion integration of `Ball.update` (src/pong.py lines
147-149): `rect.x += int(vx * dt)`, `rect.y += int(vy * dt)`. -/
def Ball.move (dt : ℚ) (b : BallState) : BallState :=
  { b with x := b.x + pyInt (b.vx * dt), y := b.y + pyInt (b.vy * dt) }

/-- Embeds the top/bottom wall collision of `Ball.update` (src/pong.py
lines 151-157): clamp to the bound and negate the vertical velocity. -/
def Ball.wall_collide (b : BallState) : BallState :=
  if b.top ≤ 0 then { b with y := 0, vy := -b.vy }
  else if SCREEN_HEIGHT ≤ b.bottom then
    { b with y := SCREEN_HEIGHT - BALL_SIZE, vy := -b.vy }
  else b

/-- pygame `Rect.colliderect` between the ball and a paddle: strict overlap
in both axes (shared edges do not collide). -/
def colliderect (b : BallState) (p : PaddleState) : Prop :=
  b.x < p.x + PADDLE_WIDTH ∧ p.x < b.x + BALL_SIZE ∧
  b.y < p.y + PADDLE_HEIGHT ∧ p.y < b.y + BALL_SIZE

instance (b : BallState) (p : PaddleState) : Decidable (colliderect b p) := by
  unfold colliderect; infer_instance

/-- Embeds `Ball._bounce_off_paddle` (src/pong.py lines 172-193). `cosf`
and `sinf` evaluate `math.cos`/`math.sin` on the bounce angle; `r` is the
jitter drawn by `random.uniform(-8.0, 8.0)`. -/
def Ball.bounce_off_paddle (cosf sinf : ℚ → ℚ) (r : ℚ)
    (paddle : PaddleState) (is_left : Bool) (b : BallState) : BallState :=
  let offset := ((b.centery - paddle.centery : ℤ) : ℚ) / ((PADDLE_HEIGHT : ℚ) / 2)
  let offset := clamp offset (-1) 1
  let angle := offset * 0.9
  let speed := min BALL_SPEED_MAX (b.speed + BALL_SPEED_INCREMENT)
  let direction : ℚ := if is_left then -1 else 1
  let vx := direction * speed * cosf angle
  let vy := speed * sinf angle
  let x := if is_left then paddle.x + PADDLE_WIDTH else paddle.x - BALL_SIZE
  let vy := vy + r
  { b with x := x, vx := vx, vy := vy, speed := speed }

/-- Embeds `Ball.update(dt, left_paddle, right_paddle)` (src/pong.py lines
141-170), returning the updated ball together with the scoring direction
the source returns: `1` when `rect.right < 0` (ball out the left edge),
`-1` when `rect.left > SCREEN_WIDTH` (ball out the right edge), else `0`. -/
def Ball.update (dt : ℚ) (now : ℤ) (c s : ℚ) (cosf sinf : ℚ → ℚ) (r : ℚ)
    (left_paddle right_paddle : PaddleState) (b0 : BallState) :
    BallState × ℤ :=
  let b := Ball.serve_if_ready now c s b0
  if b.vx ^ 2 + b.vy ^ 2 = 0 then (b, 0)
  else
    let b := Ball.move dt b
    let b := Ball.wall_collide b
    let b :=
      if colliderect b left_paddle ∧ b.vx < 0 then
        Ball.bounce_off_paddle cosf sinf r left_paddle true b
      else if colliderect b right_paddle ∧ 0 < b.vx then
        Ball.bounce_off_paddle cosf sinf r right_paddle false b
      else b
    if b.right < 0 then (b, 1)
    else if SCREEN_WIDTH < b.left then (b, -1)
    else (b, 0)

/-- Embeds `Paddle.update_player(dt, up, down)` (src/pong.py lines 57-66). -/
def Paddle.update_player (dt : ℚ) (up down : Bool) (p : PaddleState) :
    PaddleState :=
  let dy : ℚ := 0
  let dy := if up then dy - p.speed * dt else dy
  let dy := if down then dy + p.speed * dt else dy
  let c := max (PADDLE_HEIGHT / 2)
    (min (SCREEN_HEIGHT - PADDLE_HEIGHT / 2) (pyInt ((p.centery : ℚ) + dy)))
  p.set_centery c

/-- The random draws consumed by one reaction of `Paddle.update_ai`:
`next_delay` is `_rand_reaction_delay()`, `aim_err` is
`_rand_aim_error()` (magnitude times random sign). -/
structure AIRand where
  next_delay : ℚ
  aim_err : ℚ

/-- Embeds the tail of `Paddle.update_ai` (src/pong.py lines 106-110):
apply the computed step to the vertical center, then keep the rect within
the screen (`rect.top = max(0, top)`, `rect.bottom = min(SCREEN_HEIGHT,
bottom)`, both expressed on the stored top coordinate). -/
def Paddle.ai_apply_step (step : ℚ) (p1 : PaddleState) : PaddleState :=
  let p2 := p1.set_centery (pyInt ((p1.centery : ℚ) + step))
  let p3 := { p2 with y := max 0 p2.y }
  if SCREEN_HEIGHT < p3.y + PADDLE_HEIGHT then
    { p3 with y := SCREEN_HEIGHT - PADDLE_HEIGHT }
  else p3

/-- Embeds `Paddle.update_ai(dt, ball)` (src/pong.py lines 68-110):
reaction-timer driven re-aiming (with lookahead prediction reflected off
the walls when the ball approaches, drift to center otherwise), then
damped, speed-limited tracking and clamping to the screen. -/
def Paddle.update_ai (dt : ℚ) (rnd : AIRand) (ball : BallState)
    (p : PaddleState) : PaddleState :=
  let reaction_timer := p.reaction_timer + dt * 1000
  let p1 :=
    if p.next_reaction_at ≤ reaction_timer then
      let pr := { p with reaction_timer := (0 : ℚ),
                         next_reaction_at := rnd.next_delay }
      if 0 < ball.vx then
        let time_to_reach : ℚ :=
          if ball.vx ≠ 0 then ((p.x - ball.right : ℤ) : ℚ) / ball.vx else 0
        let predicted_y : ℚ :=
          (ball.centery : ℚ) + ball.vy * time_to_reach * AI_LOOKAHEAD_FACTOR
        let predicted_y := reflect_off_bounds predicted_y
          ((BALL_SIZE / 2 : ℤ) : ℚ) ((SCREEN_HEIGHT - BALL_SIZE / 2 : ℤ) : ℚ)
        let aim_error := rnd.aim_err * min 1 (|ball.vx| / BALL_SPEED_MAX)
        { pr with aim_error := aim_error, target_y := predicted_y + aim_error }
      else
        let aim_error := rnd.aim_err * 0.3
        { pr with aim_error := aim_error,
                  target_y := (SCREEN_HEIGHT : ℚ) / 2 + aim_error }
    else { p with reaction_timer := reaction_timer }
  let desired := p1.target_y - (p1.centery : ℚ)
  let desired := desired * AI_TRACK_DAMPING
  let max_step := p1.speed * dt
  let step := clamp desired (-max_step) max_step
  Paddle.ai_apply_step step p1

/-- Embeds the score-handling branch of `main` (src/pong.py lines 279-285):
a positive score signal increments the left score and serves to the right,
a negative one increments the right score and serves to the left. -/
def handle_score (score_dir : ℤ) (now : ℤ) (left_score right_score : ℕ)
    (b : BallState) : ℕ × ℕ × BallState :=
  if score_dir ≠ 0 then
    if 0 < score_dir then (left_score + 1, right_score, Ball.reset 1 now b)
    else (left_score, right_score + 1, Ball.reset (-1) now b)
  else (left_score, right_score, b)

/-- Whole-match state owned by `main` (src/pong.py lines 247-258). -/
structure GameState where
  left_paddle : PaddleState
  right_paddle : PaddleState
  ball : BallState
  left_score : ℕ
  right_score : ℕ
deriving DecidableEq

/-- Per-frame external inputs: key state, the AI's random draws, the serve
angle's cosine/sine, and the bounce jitter. -/
structure FrameInput where
  up : Bool
  down : Bool
  ai_rand : AIRand
  serve_cos : ℚ
  serve_sin : ℚ
  bounce_r : ℚ

/-- Embeds one iteration of the update section of the main loop
(src/pong.py lines 276-285 and the win-banner freeze at lines 301-312):
paddle updates, ball update, score handling, then zeroing the ball's
velocity whenever either score has reached SCORE_TO_WIN. -/
def frame (dt : ℚ) (now : ℤ) (inp : FrameInput) (cosf sinf : ℚ → ℚ)
    (g : GameState) : GameState :=
  let lp := Paddle.update_player dt inp.up inp.down g.left_paddle
  let rp := Paddle.update_ai dt inp.ai_rand g.ball g.right_paddle
  let res := Ball.update dt now inp.serve_cos inp.serve_sin cosf sinf
    inp.bounce_r lp rp g.ball
  let sc := handle_score res.2 now g.left_score g.right_score res.1
  let b := sc.2.2
  let b := if SCORE_TO_WIN ≤ sc.1 ∨ SCORE_TO_WIN ≤ sc.2.1 then
    { b with vx := 0, vy := 0 } else b
  { left_paddle := lp, right_paddle := rp, ball := b,
    left_score := sc.1, right_score := sc.2.1 }

/-! Checked variants: the same operations with every division routed
through `safe_div`, which fails (`none`) on a zero divisor. Proving them
equal to `some` of the plain operations shows the simulation core has no
failure state: in particular the `time_to_reach` division in
`Paddle.update_ai` is only reached under the `0 < ball.vx` guard. -/

/-- Division that fails on a zero divisor instead of defaulting. -/
def safe_div (a b : ℚ) : Option ℚ := if b = 0 then none else some (a / b)

/-- `pyMod` with the division checked. -/
def pyMod_checked (a m : ℚ) : Option ℚ := do
  let q ← safe_div a m
  pure (a - m * ⌊q⌋)

/-- `reflect_off_bounds` with the modulo's division checked. -/
def reflect_off_bounds_checked (y min_y max_y : ℚ) : Option ℚ :=
  let span := max_y - min_y
  if span ≤ 0 then pure (clamp y min_y max_y)
  else do
    let t ← pyMod_checked (y - min_y) (2 * span)
    let t2 := if span < t then 2 * span - t else t
    pure (min_y + t2)

/-- `Ball.bounce_off_paddle` with the offset division checked. -/
def Ball.bounce_off_paddle_checked (cosf sinf : ℚ → ℚ) (r : ℚ)
    (paddle : PaddleState) (is_left : Bool) (b : BallState) :
    Option BallState := do
  let offset ← safe_div ((b.centery - paddle.centery : ℤ) : ℚ)
    ((PADDLE_HEIGHT : ℚ) / 2)
  let offset := clamp offset (-1) 1
  let angle := offset * 0.9
  let speed := min BALL_SPEED_MAX (b.speed + BALL_SPEED_INCREMENT)
  let direction : ℚ := if is_left then -1 else 1
  let vx := direction * speed * cosf angle
  let vy := speed * sinf angle
  let x := if is_left then paddle.x + PADDLE_WIDTH else paddle.x - BALL_SIZE
  let vy := vy + r
  pure { b with x := x, vx := vx, vy := vy, speed := speed }

/-- `Paddle.update_ai` with the `time_to_reach` division and the division
inside the reflection checked. -/
def Paddle.update_ai_checked (dt : ℚ) (rnd : AIRand) (ball : BallState)
    (p : PaddleState) : Option PaddleState := do
  let reaction_timer := p.reaction_timer + dt * 1000
  let p1 ←
    if p.next_reaction_at ≤ reaction_timer then
      let pr := { p with reaction_timer := (0 : ℚ),
                         next_reaction_at := rnd.next_delay }
      if 0 < ball.vx then do
        let time_to_reach : ℚ ←
          if ball.vx ≠ 0 then safe_div ((p.x - ball.right : ℤ) : ℚ) ball.vx
          else pure 0
        let predicted_y : ℚ :=
          (ball.centery : ℚ) + ball.vy * time_to_reach * AI_LOOKAHEAD_FACTOR
        let predicted_y ← reflect_off_bounds_checked predicted_y
          ((BALL_SIZE / 2 : ℤ) : ℚ) ((SCREEN_HEIGHT - BALL_SIZE / 2 : ℤ) : ℚ)
        let aim_error := rnd.aim_err * min 1 (|ball.vx| / BALL_SPEED_MAX)
        pure { pr with aim_error := aim_error,
                       target_y := predicted_y + aim_error }
      else
        let aim_error := rnd.aim_err * 0.3
        pure { pr with aim_error := aim_error,
                       target_y := (SCREEN_HEIGHT : ℚ) / 2 + aim_error }
    else pure { p with reaction_timer := reaction_timer }
  let desired := p1.target_y - (p1.centery : ℚ)
  let desired := desired * AI_TRACK_DAMPING
  let max_step := p1.speed * dt
  let step := clamp desired (-max_step) max_step
  pure (Paddle.ai_apply_step step p1)

/-! Concrete states used by the closed evaluation theorems and witnesses.
`lp0`/`rp0` are the paddles as `main` creates them (src/pong.py lines
247-254); the extra AI fields take their post-constructor shape. -/

/-- A paddle at the given rect position with quiescent AI state. -/
def paddle0 (x y : ℤ) (sp : ℚ) : PaddleState :=
  { x := x, y := y, speed := sp, reaction_timer := 0,
    next_reaction_at := 1000, target_y := 300, aim_error := 0 }

/-- The left (player) paddle as constructed by `main`. -/
def lp0 : PaddleState := paddle0 PADDLE_MARGIN
  (SCREEN_HEIGHT / 2 - PADDLE_HEIGHT / 2) PADDLE_SPEED

/-- The right (AI) paddle as constructed by `main`. -/
def rp0 : PaddleState := paddle0 (SCREEN_WIDTH - PADDLE_MARGIN - PADDLE_WIDTH)
  (SCREEN_HEIGHT / 2 - PADDLE_HEIGHT / 2) AI_MAX_SPEED

/-- An in-flight ball one pixel short of fully exiting the right edge,
moving rightward at base speed. -/
def ballRightExit : BallState :=
  { x := 795, y := 293, vx := 360, vy := 0, speed := 360,
    serve_dir := 1, serve_time := 10000 }

/-- An in-flight ball about to fully exit the left edge, moving leftward. -/
def ballLeftExit : BallState :=
  { x := -16, y := 293, vx := -360, vy := 0, speed := 360,
    serve_dir := 1, serve_time := 10000 }

/-- A centered, stationary ball whose scheduled serve time has passed. -/
def ballWon : BallState :=
  { x := 393, y := 293, vx := 0, vy := 0, speed := 360,
    serve_dir := 1, serve_time := 0 }

/-- A match state in the terminal display state: the left score has
reached SCORE_TO_WIN and the ball sits frozen at the center. -/
def gWon : GameState :=
  { left_paddle := lp0, right_paddle := rp0, ball := ballWon,
    left_score := 10, right_score := 3 }

/-- Neutral per-frame inputs: no keys pressed, serve angle zero
(cosine 1, sine 0), no jitter, AI reaction still pending. -/
def inpWon : FrameInput :=
  { up := false, down := false,
    ai_rand := { next_delay := 100, aim_err := 0 },
    serve_cos := 1, serve_sin := 0, bounce_r := 0 }

/-- An in-flight ball whose speed 666 is strictly below the cap but
within one increment of it. -/
def ball666 : BallState :=
  { x := 756, y := 293, vx := 360, vy := 0, speed := 666,
    serve_dir := 1, serve_time := 10000 }

/-- A ball that has crossed the top bound this frame. -/
def ballTopHit : BallState :=
  { x := 100, y := -3, vx := 120, vy := -50, speed := 360,
    serve_dir := 1, serve_time := 10000 }

/-- An in-flight ball with sub-pixel per-frame displacement at small dt. -/
def ballSlow : BallState :=
  { x := 200, y := 150, vx := 30, vy := -50, speed := 360,
    serve_dir := 1, serve_time := 10000 }

/-- pyInt truncates sub-unit values to zero. -/
theorem pyInt_eq_zero_of_abs_lt {q : ℚ} (h : |q| < 1) : pyInt q = 0 := by
  unfold pyInt
  rcases abs_lt.mp h with ⟨hl, hr⟩
  by_cases h0 : 0 ≤ q
  · rw [if_pos h0]
    exact Int.floor_eq_zero_iff.mpr ⟨h0, hr⟩
  · rw [if_neg h0]
    exact Int.ceil_eq_zero_iff.mpr ⟨hl, le_of_not_le h0⟩

/-- pyMod with a positive modulus lands in [0, m). -/
theorem pyMod_nonneg_lt {a m : ℚ} (hm : 0 < m) :
    0 ≤ pyMod a m ∧ pyMod a m < m := by
  have hfr : pyMod a m = m * Int.fract (a / m) := by
    unfold pyMod Int.fract
    field_simp
  constructor
  · rw [hfr]
    exact mul_nonneg hm.le (Int.fract_nonneg _)
  · rw [hfr]
    calc m * Int.fract (a / m) < m * 1 :=
          (mul_lt_mul_left hm).mpr (Int.fract_lt_one _)
    _ = m := mul_one m

/-- pyMod is the identity on [0, m). -/
theorem pyMod_eq_self {a m : ℚ} (h0 : 0 ≤ a) (h1 : a < m) : pyMod a m = a := by
  have hm : 0 < m := lt_of_le_of_lt h0 h1
  have : ⌊a / m⌋ = 0 := by
    refine Int.floor_eq_zero_iff.mpr ⟨div_nonneg h0 hm.le, ?_⟩
    rw [div_lt_one hm]
    exact h1
  unfold pyMod
  rw [this]
  ring

/-- Unfolding equation for `reflect_off_bounds` in the proper-span case. -/
theorem reflect_off_bounds_eq (y lo hi : ℚ) (h : ¬(hi - lo ≤ 0)) :
    reflect_off_bounds y lo hi =
      lo + (if hi - lo < pyMod (y - lo) (2 * (hi - lo)) then
        2 * (hi - lo) - pyMod (y - lo) (2 * (hi - lo))
      else pyMod (y - lo) (2 * (hi - lo))) := by
  unfold reflect_off_bounds
  rw [if_neg h]

/-- C6: for hi > lo, `reflect_off_bounds y lo hi` always lies within
[lo, hi], and it is the identity on inputs already in [lo, hi]. -/
theorem C6_reflect_off_bounds_range_and_identity (y lo hi : ℚ) (h : lo < hi) :
    (lo ≤ reflect_off_bounds y lo hi ∧ reflect_off_bounds y lo hi ≤ hi) ∧
    (lo ≤ y → y ≤ hi → reflect_off_bounds y lo hi = y) := by
  have hspan : ¬(hi - lo ≤ 0) := by linarith
  have h2span : 0 < 2 * (hi - lo) := by linarith
  have hmod := pyMod_nonneg_lt (a := y - lo) h2span
  rw [reflect_off_bounds_eq y lo hi hspan]
  constructor
  · by_cases hc : hi - lo < pyMod (y - lo) (2 * (hi - lo))
    · rw [if_pos hc]
      constructor
      · linarith [hmod.2]
      · linarith [hmod.1]
    · rw [if_neg hc]
      push_neg at hc
      constructor
      · linarith [hmod.1]
      · linarith
  · intro hy1 hy2
    have hself : pyMod (y - lo) (2 * (hi - lo)) = y - lo :=
      pyMod_eq_self (by linarith) (by linarith)
    rw [hself, if_neg (by linarith)]
    ring

/-- The AI step application always leaves the paddle top in [0, 500]. -/
theorem ai_apply_step_y_mem (step : ℚ) (p1 : PaddleState) :
    0 ≤ (Paddle.ai_apply_step step p1).y ∧
    (Paddle.ai_apply_step step p1).y ≤ SCREEN_HEIGHT - PADDLE_HEIGHT := by
  unfold Paddle.ai_apply_step
  by_cases hc : SCREEN_HEIGHT <
      max 0 (p1.set_centery (pyInt ((p1.centery : ℚ) + step))).y + PADDLE_HEIGHT
  · rw [if_pos hc]
    norm_num [SCREEN_HEIGHT, PADDLE_HEIGHT]
  · rw [if_neg hc]
    push_neg at hc
    dsimp only at hc ⊢
    constructor
    · exact le_max_left 0 _
    · omega

/-- The AI update ends in an application of `Paddle.ai_apply_step`. -/
theorem update_ai_eq_apply_step (dt : ℚ) (rnd : AIRand) (ball : BallState)
    (p : PaddleState) : ∃ step p1,
    Paddle.update_ai dt rnd ball p = Paddle.ai_apply_step step p1 := by
  unfold Paddle.update_ai
  exact ⟨_, _, rfl⟩

/-- C7: after `Paddle.update_player` and after `Paddle.update_ai` the
paddle's vertical center lies within
[PADDLE_HEIGHT / 2, SCREEN_HEIGHT - PADDLE_HEIGHT / 2], so every frame of
the simulation preserves this invariant for both paddles. -/
theorem C7_paddle_center_bounds (dt : ℚ) (up down : Bool) (rnd : AIRand)
    (ball : BallState) (p q : PaddleState) (now : ℤ) (inp : FrameInput)
    (cosf sinf : ℚ → ℚ) (g : GameState) :
    (PADDLE_HEIGHT / 2 ≤ (Paddle.update_player dt up down p).centery ∧
      (Paddle.update_player dt up down p).centery ≤
        SCREEN_HEIGHT - PADDLE_HEIGHT / 2) ∧
    (PADDLE_HEIGHT / 2 ≤ (Paddle.update_ai dt rnd ball q).centery ∧
      (Paddle.update_ai dt rnd ball q).centery ≤
        SCREEN_HEIGHT - PADDLE_HEIGHT / 2) ∧
    (PADDLE_HEIGHT / 2 ≤
        (frame dt now inp cosf sinf g).left_paddle.centery ∧
      (frame dt now inp cosf sinf g).left_paddle.centery ≤
        SCREEN_HEIGHT - PADDLE_HEIGHT / 2) ∧
    (PADDLE_HEIGHT / 2 ≤
        (frame dt now inp cosf sinf g).right_paddle.centery ∧
      (frame dt now inp cosf sinf g).right_paddle.centery ≤
        SCREEN_HEIGHT - PADDLE_HEIGHT / 2) := by
  have hplayer : ∀ (d : ℚ) (u v : Bool) (r : PaddleState),
      PADDLE_HEIGHT / 2 ≤ (Paddle.update_player d u v r).centery ∧
      (Paddle.update_player d u v r).centery ≤
        SCREEN_HEIGHT - PADDLE_HEIGHT / 2 := by
    intro d u v r
    unfold Paddle.update_player PaddleState.set_centery PaddleState.centery
    dsimp only
    generalize pyInt _ = z
    rw [sub_add_cancel]
    exact ⟨le_max_left _ _,
      max_le (by norm_num [SCREEN_HEIGHT, PADDLE_HEIGHT]) (min_le_left _ _)⟩
  have hai : ∀ (d : ℚ) (rn : AIRand) (bl : BallState) (r : PaddleState),
      PADDLE_HEIGHT / 2 ≤ (Paddle.update_ai d rn bl r).centery ∧
      (Paddle.update_ai d rn bl r).centery ≤
        SCREEN_HEIGHT - PADDLE_HEIGHT / 2 := by
    intro d rn bl r
    obtain ⟨step, p1, heq⟩ := update_ai_eq_apply_step d rn bl r
    rw [heq]
    have := ai_apply_step_y_mem step p1
    unfold PaddleState.centery
    omega
  refine ⟨hplayer dt up down p, hai dt rnd ball q, ?_, ?_⟩
  · show PADDLE_HEIGHT / 2 ≤ (Paddle.update_player dt inp.up inp.down
      g.left_paddle).centery ∧ _
    exact hplayer dt inp.up inp.down g.left_paddle
  · show PADDLE_HEIGHT / 2 ≤ (Paddle.update_ai dt inp.ai_rand g.ball
      g.right_paddle).centery ∧ _
    exact hai dt inp.ai_rand g.ball g.right_paddle

/-- C8: when the moved ball reaches or crosses the top (resp. bottom)
screen bound, `Ball.wall_collide` — the collision handling `Ball.update`
applies right after the motion step — clamps the position to that bound
and negates the vertical velocity component, leaving its magnitude
unchanged. -/
theorem C8_wall_collision (b : BallState) :
    (b.top ≤ 0 → Ball.wall_collide b = { b with y := 0, vy := -b.vy }) ∧
    (0 < b.top → SCREEN_HEIGHT ≤ b.bottom →
      Ball.wall_collide b =
        { b with y := SCREEN_HEIGHT - BALL_SIZE, vy := -b.vy }) ∧
    ((b.top ≤ 0 ∨ SCREEN_HEIGHT ≤ b.bottom) →
      |(Ball.wall_collide b).vy| = |b.vy|) := by
  refine ⟨?_, ?_, ?_⟩
  · intro h
    unfold Ball.wall_collide
    rw [if_pos h]
  · intro h1 h2
    unfold Ball.wall_collide
    rw [if_neg (by omega), if_pos h2]
  · intro h
    unfold Ball.wall_collide
    rcases h with h | h
    · rw [if_pos h]
      exact abs_neg b.vy
    · by_cases h0 : b.top ≤ 0
      · rw [if_pos h0]
        exact abs_neg b.vy
      · rw [if_neg h0, if_pos h]
        exact abs_neg b.vy

/-- C8 witness: a concrete ball three pixels past the top bound. -/
theorem C8_wall_collision_witness :
    Ball.wall_collide ballTopHit =
      { ballTopHit with y := 0, vy := -ballTopHit.vy } ∧
    |(Ball.wall_collide ballTopHit).vy| = |ballTopHit.vy| :=
  ⟨(C8_wall_collision ballTopHit).1 (by norm_num [ballTopHit, BallState.top]),
   (C8_wall_collision ballTopHit).2.2
     (Or.inl (by norm_num [ballTopHit, BallState.top]))⟩

/-- C10: the motion integration of `Ball.update` advances the position by
the truncated integer displacements `pyInt (vx * dt)` and
`pyInt (vy * dt)`; whenever such a per-frame displacement has magnitude
below one pixel, the corresponding coordinate is unchanged. -/
theorem C10_subpixel_motion_lost (dt : ℚ) (b : BallState) :
    (Ball.move dt b).x = b.x + pyInt (b.vx * dt) ∧
    (Ball.move dt b).y = b.y + pyInt (b.vy * dt) ∧
    (|b.vx * dt| < 1 → (Ball.move dt b).x = b.x) ∧
    (|b.vy * dt| < 1 → (Ball.move dt b).y = b.y) := by
  refine ⟨rfl, rfl, ?_, ?_⟩
  · intro h
    show b.x + pyInt (b.vx * dt) = b.x
    rw [pyInt_eq_zero_of_abs_lt h, add_zero]
  · intro h
    show b.y + pyInt (b.vy * dt) = b.y
    rw [pyInt_eq_zero_of_abs_lt h, add_zero]

/-- C10 witness: at dt = 1/100 s a ball moving 30 px/s right and 50 px/s
up has sub-pixel displacement in both axes, so its position is unchanged. -/
theorem C10_subpixel_motion_lost_witness :
    (Ball.move (1/100) ballSlow).x = ballSlow.x ∧
    (Ball.move (1/100) ballSlow).y = ballSlow.y :=
  ⟨(C10_subpixel_motion_lost (1/100) ballSlow).2.2.1
      (by rw [abs_lt]; norm_num [ballSlow]),
   (C10_subpixel_motion_lost (1/100) ballSlow).2.2.2
      (by rw [abs_lt]; norm_num [ballSlow])⟩

/-- C4 counterexample: at speed 666 — within [BALL_SPEED, BALL_SPEED_MAX]
and strictly below the cap — a paddle hit raises the speed to the cap 680,
an increase of 14, not BALL_SPEED_INCREMENT = 18. -/
theorem C4_counterexample :
    BALL_SPEED ≤ ball666.speed ∧ ball666.speed ≤ BALL_SPEED_MAX ∧
    ball666.speed ≠ BALL_SPEED_MAX ∧
    (Ball.bounce_off_paddle (fun _ => 1) (fun _ => 0) 0 rp0 false
        ball666).speed ≠ ball666.speed + BALL_SPEED_INCREMENT ∧
    (Ball.bounce_off_paddle (fun _ => 1) (fun _ => 0) 0 rp0 false
        ball666).speed = BALL_SPEED_MAX := by
  norm_num [ball666, Ball.bounce_off_paddle, BALL_SPEED, BALL_SPEED_MAX,
    BALL_SPEED_INCREMENT]

/-- C4 (amended): for a paddle hit with prior speed in
[BALL_SPEED, BALL_SPEED_MAX], the new speed is non-decreasing, never
exceeds BALL_SPEED_MAX, strictly increases whenever the prior speed was
below the cap, equals prior + BALL_SPEED_INCREMENT whenever that sum is
within the cap, and otherwise rises to exactly the cap. -/
theorem C4_bounce_speed (cosf sinf : ℚ → ℚ) (r : ℚ) (p : PaddleState)
    (il : Bool) (b : BallState) (h1 : BALL_SPEED ≤ b.speed)
    (h2 : b.speed ≤ BALL_SPEED_MAX) :
    b.speed ≤ (Ball.bounce_off_paddle cosf sinf r p il b).speed ∧
    (Ball.bounce_off_paddle cosf sinf r p il b).speed ≤ BALL_SPEED_MAX ∧
    (b.speed < BALL_SPEED_MAX →
      b.speed < (Ball.bounce_off_paddle cosf sinf r p il b).speed) ∧
    (b.speed + BALL_SPEED_INCREMENT ≤ BALL_SPEED_MAX →
      (Ball.bounce_off_paddle cosf sinf r p il b).speed =
        b.speed + BALL_SPEED_INCREMENT) ∧
    (BALL_SPEED_MAX < b.speed + BALL_SPEED_INCREMENT →
      (Ball.bounce_off_paddle cosf sinf r p il b).speed = BALL_SPEED_MAX) := by
  have hsp : (Ball.bounce_off_paddle cosf sinf r p il b).speed =
      min BALL_SPEED_MAX (b.speed + BALL_SPEED_INCREMENT) := rfl
  rw [hsp]
  have hinc : (0 : ℚ) < BALL_SPEED_INCREMENT := by
    norm_num [BALL_SPEED_INCREMENT]
  refine ⟨?_, min_le_left _ _, ?_, ?_, ?_⟩
  · exact le_min h2 (by linarith)
  · intro h
    exact lt_min h (by linarith)
  · intro h
    exact min_eq_right h
  · intro h
    exact min_eq_left h.le

/-- C4 witness: a hit at base speed 360 increases the speed by exactly 18. -/
theorem C4_bounce_speed_witness :
    ballRightExit.speed ≤ (Ball.bounce_off_paddle (fun _ => 1) (fun _ => 0) 0
      rp0 false ballRightExit).speed ∧
    (Ball.bounce_off_paddle (fun _ => 1) (fun _ => 0) 0 rp0 false
      ballRightExit).speed ≤ BALL_SPEED_MAX ∧
    (ballRightExit.speed < BALL_SPEED_MAX →
      ballRightExit.speed < (Ball.bounce_off_paddle (fun _ => 1) (fun _ => 0)
        0 rp0 false ballRightExit).speed) ∧
    (ballRightExit.speed + BALL_SPEED_INCREMENT ≤ BALL_SPEED_MAX →
      (Ball.bounce_off_paddle (fun _ => 1) (fun _ => 0) 0 rp0 false
        ballRightExit).speed = ballRightExit.speed + BALL_SPEED_INCREMENT) ∧
    (BALL_SPEED_MAX < ballRightExit.speed + BALL_SPEED_INCREMENT →
      (Ball.bounce_off_paddle (fun _ => 1) (fun _ => 0) 0 rp0 false
        ballRightExit).speed = BALL_SPEED_MAX) :=
  C4_bounce_speed (fun _ => 1) (fun _ => 0) 0 rp0 false ballRightExit
    (by norm_num [ballRightExit, BALL_SPEED])
    (by norm_num [ballRightExit, BALL_SPEED_MAX])

/-- The checked reflection never fails and agrees with the plain one. -/
theorem reflect_off_bounds_checked_eq (y min_y max_y : ℚ) :
    reflect_off_bounds_checked y min_y max_y =
      some (reflect_off_bounds y min_y max_y) := by
  unfold reflect_off_bounds_checked reflect_off_bounds pyMod_checked safe_div pyMod
  by_cases h : max_y - min_y ≤ 0
  · rw [if_pos h, if_pos h]
    rfl
  · rw [if_neg h, if_neg h]
    have hne : 2 * (max_y - min_y) ≠ 0 := by
      intro hz
      apply h
      linarith [hz]
    simp [hne]

/-- The checked bounce never fails and agrees with the plain one. -/
theorem bounce_off_paddle_checked_eq (cosf sinf : ℚ → ℚ) (r : ℚ)
    (paddle : PaddleState) (il : Bool) (b : BallState) :
    Ball.bounce_off_paddle_checked cosf sinf r paddle il b =
      some (Ball.bounce_off_paddle cosf sinf r paddle il b) := by
  unfold Ball.bounce_off_paddle_checked Ball.bounce_off_paddle safe_div
  have hne : (PADDLE_HEIGHT : ℚ) / 2 ≠ 0 := by
    norm_num [PADDLE_HEIGHT]
  simp [hne]

/-- The checked AI update never fails and agrees with the plain one. -/
theorem update_ai_checked_eq (dt : ℚ) (rnd : AIRand) (ball : BallState)
    (p : PaddleState) :
    Paddle.update_ai_checked dt rnd ball p =
      some (Paddle.update_ai dt rnd ball p) := by
  unfold Paddle.update_ai_checked Paddle.update_ai safe_div
  by_cases h1 : p.next_reaction_at ≤ p.reaction_timer + dt * 1000
  · by_cases h2 : 0 < ball.vx
    · have hne : ball.vx ≠ 0 := ne_of_gt h2
      simp [h1, h2, hne, reflect_off_bounds_checked_eq]
    · simp [h1, h2]
  · simp [h1]

/-- C9: the simulation core has no failure states — with every division
checked (failing on a zero divisor), `Paddle.update_ai`, the bounce
routine and `reflect_off_bounds` are defined on every state and input: in
particular the `time_to_reach` division only runs under the guard that the
ball's horizontal velocity is strictly positive, so no division by zero
occurs. All remaining core operations (`Paddle.update_player`,
`Ball.serve_if_ready`, `Ball.update`, `Ball.reset`, `clamp`) are total by
construction. -/
theorem C9_no_failure_states :
    (∀ (dt : ℚ) (rnd : AIRand) (ball : BallState) (p : PaddleState),
      Paddle.update_ai_checked dt rnd ball p =
        some (Paddle.update_ai dt rnd ball p)) ∧
    (∀ (cosf sinf : ℚ → ℚ) (r : ℚ) (paddle : PaddleState) (il : Bool)
        (b : BallState),
      Ball.bounce_off_paddle_checked cosf sinf r paddle il b =
        some (Ball.bounce_off_paddle cosf sinf r paddle il b)) ∧
    (∀ (y lo hi : ℚ),
      reflect_off_bounds_checked y lo hi =
        some (reflect_off_bounds y lo hi)) :=
  ⟨update_ai_checked_eq, bounce_off_paddle_checked_eq,
   reflect_off_bounds_checked_eq⟩

/-- Case analysis on the score signal of `Ball.update`: it is 1 only when
the final ball is fully past the left edge, -1 only when fully past the
right edge, and always one of 1, -1, 0. -/
theorem ball_update_signal_spec (dt : ℚ) (now : ℤ) (c s : ℚ)
    (cosf sinf : ℚ → ℚ) (r : ℚ) (lp rp : PaddleState) (b : BallState) :
    ((Ball.update dt now c s cosf sinf r lp rp b).2 = 1 →
      (Ball.update dt now c s cosf sinf r lp rp b).1.right < 0) ∧
    ((Ball.update dt now c s cosf sinf r lp rp b).2 = -1 →
      SCREEN_WIDTH < (Ball.update dt now c s cosf sinf r lp rp b).1.left) ∧
    ((Ball.update dt now c s cosf sinf r lp rp b).2 = 1 ∨
     (Ball.update dt now c s cosf sinf r lp rp b).2 = -1 ∨
     (Ball.update dt now c s cosf sinf r lp rp b).2 = 0) := by
  unfold Ball.update
  dsimp only
  split_ifs <;> simp_all

/-- A positive score signal takes the first scoring branch of `main`. -/
theorem handle_score_pos (now : ℤ) (ls rs : ℕ) (b : BallState) :
    handle_score 1 now ls rs b = (ls + 1, rs, Ball.reset 1 now b) := by
  simp [handle_score]

/-- A negative score signal takes the second scoring branch of `main`. -/
theorem handle_score_neg (now : ℤ) (ls rs : ℕ) (b : BallState) :
    handle_score (-1) now ls rs b = (ls, rs + 1, Ball.reset (-1) now b) := by
  simp [handle_score]

/-- C2: a nonzero score signal from `Ball.update` increments exactly one
score by exactly one, namely the score of the side whose edge the ball
exited: signal 1 — produced exactly when the ball fully exited the left
edge — increments the left (human) score, and signal -1 — produced
exactly when the ball fully exited the right edge — increments the right
(AI) score; the signal is always 1, -1 or 0. -/
theorem C2_score_signal_routing (dt : ℚ) (now : ℤ) (c s : ℚ)
    (cosf sinf : ℚ → ℚ) (r : ℚ) (lp rp : PaddleState) (b : BallState)
    (ls rs : ℕ) :
    ((Ball.update dt now c s cosf sinf r lp rp b).2 = 1 →
      (Ball.update dt now c s cosf sinf r lp rp b).1.right < 0 ∧
      handle_score (Ball.update dt now c s cosf sinf r lp rp b).2 now ls rs
          (Ball.update dt now c s cosf sinf r lp rp b).1 =
        (ls + 1, rs,
          Ball.reset 1 now (Ball.update dt now c s cosf sinf r lp rp b).1)) ∧
    ((Ball.update dt now c s cosf sinf r lp rp b).2 = -1 →
      SCREEN_WIDTH < (Ball.update dt now c s cosf sinf r lp rp b).1.left ∧
      handle_score (Ball.update dt now c s cosf sinf r lp rp b).2 now ls rs
          (Ball.update dt now c s cosf sinf r lp rp b).1 =
        (ls, rs + 1,
          Ball.reset (-1) now
            (Ball.update dt now c s cosf sinf r lp rp b).1)) ∧
    ((Ball.update dt now c s cosf sinf r lp rp b).2 = 1 ∨
     (Ball.update dt now c s cosf sinf r lp rp b).2 = -1 ∨
     (Ball.update dt now c s cosf sinf r lp rp b).2 = 0) := by
  obtain ⟨hpos, hneg, htri⟩ :=
    ball_update_signal_spec dt now c s cosf sinf r lp rp b
  refine ⟨?_, ?_, htri⟩
  · intro h
    rw [h]
    exact ⟨hpos h, handle_score_pos now ls rs _⟩
  · intro h
    rw [h]
    exact ⟨hneg h, handle_score_neg now ls rs _⟩

/-- C2 witness: a ball exiting the left edge yields signal 1 and the
scores 3:7 become 4:7. -/
theorem C2_score_signal_routing_witness :
    (Ball.update (1/60) 0 1 0 (fun _ => 1) (fun _ => 0) 0 lp0 rp0
        ballLeftExit).1.right < 0 ∧
    handle_score (Ball.update (1/60) 0 1 0 (fun _ => 1) (fun _ => 0) 0 lp0
        rp0 ballLeftExit).2 0 3 7
        (Ball.update (1/60) 0 1 0 (fun _ => 1) (fun _ => 0) 0 lp0 rp0
          ballLeftExit).1 =
      (4, 7, Ball.reset 1 0
        (Ball.update (1/60) 0 1 0 (fun _ => 1) (fun _ => 0) 0 lp0 rp0
          ballLeftExit).1) :=
  (C2_score_signal_routing (1/60) 0 1 0 (fun _ => 1) (fun _ => 0) 0 lp0 rp0
      ballLeftExit 3 7).1
    (by norm_num [Ball.update, Ball.serve_if_ready, Ball.move,
      Ball.wall_collide, colliderect, Ball.bounce_off_paddle, BallState.top,
      BallState.bottom, BallState.left, BallState.right, BallState.centery,
      pyInt, copysign, Int.ceil_neg, ballLeftExit, lp0, rp0, paddle0,
      SCREEN_WIDTH, SCREEN_HEIGHT, BALL_SIZE, PADDLE_WIDTH, PADDLE_HEIGHT,
      PADDLE_MARGIN, PADDLE_SPEED, AI_MAX_SPEED])

/-- C5: after a score, `Ball.reset` stores the sign passed by the scoring
branch as the serve direction, and `Ball.serve_if_ready` launches the
serve with that sign on its horizontal velocity: incrementing the left
score (signal 1, branch `Ball.reset 1`) makes the next serve move
rightward, toward the AI, and incrementing the right score (signal -1,
branch `Ball.reset (-1)`) makes it move leftward, toward the human. The
serve-angle cosine `c` is positive since the angle is drawn from
[-0.35, 0.35]. -/
theorem C5_serve_toward_non_scorer (now now2 : ℤ) (c s : ℚ) (b : BallState)
    (ls rs : ℕ) (hc : 0 < c) (ht : now + SERVE_DELAY ≤ now2) :
    (handle_score 1 now ls rs b).1 = ls + 1 ∧
    (handle_score 1 now ls rs b).2.2.serve_dir = 1 ∧
    0 < (Ball.serve_if_ready now2 c s (handle_score 1 now ls rs b).2.2).vx ∧
    (handle_score (-1) now ls rs b).2.1 = rs + 1 ∧
    (handle_score (-1) now ls rs b).2.2.serve_dir = -1 ∧
    (Ball.serve_if_ready now2 c s
      (handle_score (-1) now ls rs b).2.2).vx < 0 := by
  have h360c : (0 : ℚ) < 360 * c := by linarith
  refine ⟨?_, ?_, ?_, ?_, ?_, ?_⟩ <;>
    simp [handle_score, Ball.reset, Ball.serve_if_ready, copysign,
      BALL_SPEED, ht, abs_of_pos h360c] <;>
    norm_num <;>
    linarith

/-- C5 witness: with serve cosine 1 and the serve delay elapsed, the two
scoring branches serve rightward and leftward respectively. -/
theorem C5_serve_toward_non_scorer_witness :
    (handle_score 1 0 3 7 ballWon).1 = 3 + 1 ∧
    (handle_score 1 0 3 7 ballWon).2.2.serve_dir = 1 ∧
    0 < (Ball.serve_if_ready 800 1 0 (handle_score 1 0 3 7 ballWon).2.2).vx ∧
    (handle_score (-1) 0 3 7 ballWon).2.1 = 7 + 1 ∧
    (handle_score (-1) 0 3 7 ballWon).2.2.serve_dir = -1 ∧
    (Ball.serve_if_ready 800 1 0
      (handle_score (-1) 0 3 7 ballWon).2.2).vx < 0 :=
  C5_serve_toward_non_scorer 0 800 1 0 ballWon 3 7 (by norm_num)
    (by norm_num [SERVE_DELAY])

/-- C1: evaluating `Ball.update` at the claim's own scenario refutes it —
a ball moving rightward that ends fully past the right screen edge makes
the call return -1 (and a ball out the left edge makes it return 1),
the opposite of both the claim and the function's docstring. -/
theorem C1_exit_signal_eval :
    (Ball.update (1/60) 0 1 0 (fun _ => 1) (fun _ => 0) 0 lp0 rp0
        ballRightExit).2 = -1 ∧
    SCREEN_WIDTH < (Ball.update (1/60) 0 1 0 (fun _ => 1) (fun _ => 0) 0 lp0
        rp0 ballRightExit).1.left ∧
    (Ball.update (1/60) 0 1 0 (fun _ => 1) (fun _ => 0) 0 lp0 rp0
        ballLeftExit).2 = 1 ∧
    (Ball.update (1/60) 0 1 0 (fun _ => 1) (fun _ => 0) 0 lp0 rp0
        ballLeftExit).1.right < 0 := by
  norm_num [Ball.update, Ball.serve_if_ready, Ball.move, Ball.wall_collide,
    colliderect, Ball.bounce_off_paddle, BallState.top, BallState.bottom,
    BallState.left, BallState.right, BallState.centery, pyInt, copysign,
    Int.ceil_neg, ballRightExit, ballLeftExit, lp0, rp0, paddle0,
    SCREEN_WIDTH, SCREEN_HEIGHT, BALL_SIZE, PADDLE_WIDTH, PADDLE_HEIGHT,
    PADDLE_MARGIN, PADDLE_SPEED, AI_MAX_SPEED]

/-- C3: in the terminal display state (left score at SCORE_TO_WIN, ball
frozen at the center with its serve delay already elapsed), one further
frame of the loop still updates the ball's position: `serve_if_ready`
re-launches the stationary ball inside `Ball.update`, the ball advances 6
pixels, and only then does the win-banner code zero the velocity again. -/
theorem C3_ball_still_moves_after_win :
    gWon.left_score = SCORE_TO_WIN ∧
    gWon.ball.vx = 0 ∧ gWon.ball.vy = 0 ∧
    (frame (1/60) 1000 inpWon (fun _ => 1) (fun _ => 0) gWon).left_score =
      SCORE_TO_WIN ∧
    (frame (1/60) 1000 inpWon (fun _ => 1) (fun _ => 0) gWon).ball.x ≠
      gWon.ball.x ∧
    (frame (1/60) 1000 inpWon (fun _ => 1) (fun _ => 0) gWon).ball.vx = 0 ∧
    (frame (1/60) 1000 inpWon (fun _ => 1) (fun _ => 0) gWon).ball.vy = 0 := by
  norm_num [frame, Ball.update, Ball.serve_if_ready, Ball.move,
    Ball.wall_collide, colliderect, Ball.bounce_off_paddle, BallState.top,
    BallState.bottom, BallState.left, BallState.right, BallState.centery,
    pyInt, copysign, Paddle.update_player, Paddle.update_ai,
    Paddle.ai_apply_step, PaddleState.centery, PaddleState.set_centery,
    clamp, reflect_off_bounds, pyMod, handle_score, Ball.reset,
    gWon, ballWon, inpWon, lp0, rp0, paddle0,
    SCREEN_WIDTH, SCREEN_HEIGHT, BALL_SIZE, PADDLE_WIDTH, PADDLE_HEIGHT,
    PADDLE_MARGIN, PADDLE_SPEED, AI_MAX_SPEED, BALL_SPEED, BALL_SPEED_MAX,
    SCORE_TO_WIN, SERVE_DELAY, AI_TRACK_DAMPING, AI_LOOKAHEAD_FACTOR]

/-- C6 witness: concrete bounds 0 < 10 with the in-range input 5. -/
theorem C6_reflect_off_bounds_witness :
    ((0 : ℚ) ≤ reflect_off_bounds 5 0 10 ∧ reflect_off_bounds 5 0 10 ≤ 10) ∧
    ((0 : ℚ) ≤ 5 → (5 : ℚ) ≤ 10 → reflect_off_bounds 5 0 10 = 5) :=
  C6_reflect_off_bounds_range_and_identity 5 0 10 (by norm_num)
